import Mathlib

/-!
Verification of the ClearSky backend (`main.py`): a TTL-cached resilient
fetcher, an air-quality station aggregator, a cities listing, a current
weather endpoint and a forecast synthesizer, embedded shallowly in Lean.
Python dicts are modelled as association lists keeping insertion order,
timestamps as integers (seconds), upstream HTTP calls as `Except Unit`
values supplied by the environment, and numeric readings as rationals.
-/

namespace CleanSky

/-- First-match lookup in an association list (observation of a Python dict). -/
def alookup {β : Type} : List (String × β) → String → Option β
  | [], _ => none
  | (q, b) :: rest, p => if q = p then some b else alookup rest p

/-- One entry of the global `CACHE` dict: `{"data": ..., "timestamp": ...}`. -/
structure CacheEntry (α : Type) where
  data : α
  timestamp : Int
deriving DecidableEq

/-- The global `CACHE` dict, keyed by cache key, for payload type `α`. -/
abbrev Cache (α : Type) := List (String × CacheEntry α)

/-- The constant `CACHE_TTL = 3600` seconds. -/
def CACHE_TTL : Int := 3600

/-- Dict update `CACHE[key] = {"data": d, "timestamp": t}`: replaces the
entry in place when the key is present, appends otherwise. -/
def cachePut {α : Type} : Cache α → String → α → Int → Cache α
  | [], k, d, t => [(k, ⟨d, t⟩)]
  | (q, e) :: rest, k, d, t =>
    if q = k then (q, ⟨d, t⟩) :: rest else (q, e) :: cachePut rest k d t

/-- The freshness test `cache_key in CACHE and (now - timestamp).total_seconds()
< CACHE_TTL`: returns the cached payload when fresh, `none` otherwise. -/
def lookupFresh {α : Type} (c : Cache α) (k : String) (now : Int) : Option α :=
  match alookup c k with
  | some e => if now - e.timestamp < CACHE_TTL then some e.data else none
  | none => none

/-- Outcome of one `fetch_and_cache` call: the returned payload, the cache
state afterwards, and how many upstream HTTP requests were issued. -/
structure FetchOutcome (α : Type) where
  data : α
  cache : Cache α
  upstream_calls : Nat
deriving DecidableEq

/-- The function `fetch_and_cache(url, headers, fallback_data, cache_key)` of `main.py`:
serve a fresh cache hit without an upstream call; otherwise perform the
upstream call, caching and returning the payload on success, and returning
`fallback_data` without touching the cache on any `requests.RequestException`
(network error, non-2xx status via `raise_for_status`, or JSON decode error). -/
def fetch_and_cache {α : Type} (upstream : Except Unit α) (url : String)
    (cache_key : Option String) (fallback_data : α) (now : Int)
    (cache : Cache α) : FetchOutcome α :=
  match lookupFresh cache (cache_key.getD url) now with
  | some d => ⟨d, cache, 0⟩
  | none =>
    match upstream with
    | .ok data => ⟨data, cachePut cache (cache_key.getD url) data now, 1⟩
    | .error _ => ⟨fallback_data, cache, 1⟩

/-- One measurement record of a station: the fields `m["parameter"]` and
`m["value"]` consumed by the aggregation loop. -/
structure Measurement where
  parameter : String
  value : ℚ
deriving DecidableEq

/-- One raw station record from the latest-readings call, with its
`"measurements"` list (the only field the aggregator consumes). -/
structure Station where
  measurements : List Measurement
deriving DecidableEq

/-- One location descriptor from the station-lookup call: the optional
`"name"` and `"location"` fields consumed by the aggregator. -/
structure AQLocation where
  name : Option String
  location : Option String
deriving DecidableEq

/-- Python truthiness of an optional string: `None` and `""` are falsy. -/
def truthyStr : Option String → Option String
  | none => none
  | some s => if s = "" then none else some s

/-- The expression `loc.get("name") or loc.get("location")` followed by the
`if not location_name: continue` guard: the first truthy of the two fields. -/
def locationName (loc : AQLocation) : Option String :=
  match truthyStr loc.name with
  | some n => some n
  | none => truthyStr loc.location

/-- The statement `aggregated_values.setdefault(param, []).append(value)`:
append to the existing per-parameter list, or add a new key at the end. -/
def addValue : List (String × List ℚ) → String → ℚ → List (String × List ℚ)
  | [], p, v => [(p, [v])]
  | (q, vs) :: rest, p, v =>
    if q = p then (q, vs ++ [v]) :: rest else (q, vs) :: addValue rest p v

/-- Body of `for station in latest_data`: append the raw station record to
`all_stations` and fold its measurements into the per-parameter accumulator. -/
def stepStation (st : List (String × List ℚ) × List Station) (s : Station) :
    List (String × List ℚ) × List Station :=
  (s.measurements.foldl (fun a m => addValue a m.parameter m.value) st.1,
   st.2 ++ [s])

/-- Body of `for loc in loc_data`: skip a location without a usable name,
catch an individual latest-readings failure (leaving the state untouched),
and otherwise fold all returned station records into the state. -/
def stepLoc (latest : String → Except Unit (List Station))
    (st : List (String × List ℚ) × List Station) (loc : AQLocation) :
    List (String × List ℚ) × List Station :=
  match locationName loc with
  | none => st
  | some nm =>
    match latest nm with
    | .error _ => st
    | .ok ss => ss.foldl stepStation st

/-- The air-quality result dict: `{"aggregated": ..., "last_updated": ...,
"locations": ...}`. -/
structure AQData where
  aggregated : List (String × ℚ)
  last_updated : Int
  locations : List Station
deriving DecidableEq

/-- The successful aggregation computation of `air_quality`: run the
per-location loop from an empty accumulator, then average each parameter's
values (`sum(vals) / len(vals)` over parameters with a nonempty list). -/
def aq_compute (locs : List AQLocation)
    (latest : String → Except Unit (List Station)) (utc_now : Int) : AQData :=
  ⟨((locs.foldl (stepLoc latest) ([], [])).1.filter
       (fun e => !e.2.isEmpty)).map
      (fun e => (e.1, e.2.sum / (e.2.length : ℚ))),
   utc_now, (locs.foldl (stepLoc latest) ([], [])).2⟩

/-- What the `/air-quality` endpoint hands back to the HTTP layer: either a
payload dict, or the 404 JSON response produced from the caught
`HTTPException` when no locations were found. -/
inductive AQResponse
  | result (d : AQData)
  | notFound
deriving DecidableEq

/-- The `air_quality(city)` endpoint of `main.py`: serve a fresh cache hit;
otherwise perform the station-lookup call — on its failure return the fixed
dummy payload uncached, on zero results return the 404 response uncached,
and otherwise aggregate the per-location latest readings, cache the result
under the per-city key and return it. -/
def air_quality (city : String) (now utc_now : Int) (cache : Cache AQData)
    (lookup : Except Unit (List AQLocation))
    (latest : String → Except Unit (List Station)) :
    AQResponse × Cache AQData :=
  match lookupFresh cache ("air_quality_" ++ city) now with
  | some d => (.result d, cache)
  | none =>
    match lookup with
    | .error _ =>
      (.result ⟨[("pm25", 20), ("pm10", 35), ("no2", 15)], utc_now, []⟩, cache)
    | .ok loc_data =>
      if loc_data.isEmpty then (.notFound, cache)
      else
        let result := aq_compute loc_data latest utc_now
        (.result result, cachePut cache ("air_quality_" ++ city) result now)

/-- The raw station records the loop can actually collect: for each resolved
location in order, the latest-readings payload when that call succeeds, and
nothing when it fails or the location has no usable name. -/
def fetchedStations (locs : List AQLocation)
    (latest : String → Except Unit (List Station)) : List Station :=
  locs.flatMap fun loc =>
    match locationName loc with
    | none => []
    | some nm =>
      match latest nm with
      | .ok ss => ss
      | .error _ => []

/-- All `(parameter, value)` pairs of a station list, in traversal order. -/
def stationMeasurements (ss : List Station) : List (String × ℚ) :=
  ss.flatMap fun s => s.measurements.map fun m => (m.parameter, m.value)

/-- The values reported for one parameter, in traversal order. -/
def valuesFor : List (String × ℚ) → String → List ℚ
  | [], _ => []
  | (q, v) :: rest, p =>
    if q = p then v :: valuesFor rest p else valuesFor rest p

/-- The `"current_weather"` snapshot fields of an Open-Meteo payload. -/
structure CurrentWeather where
  temperature : Option ℚ
  windspeed : Option ℚ
  weathercode : Option Int
deriving DecidableEq

/-- An Open-Meteo response body, reduced to its `"current_weather"` field
(the only field the endpoints consume). -/
structure OMPayload where
  current_weather : Option CurrentWeather
deriving DecidableEq

/-- The dict `{"source": "open-meteo", "current_weather": ...}` returned by
the `/weather` endpoint on success. -/
structure WeatherResult where
  source : String
  current_weather : Option CurrentWeather
deriving DecidableEq

/-- The `current_weather(lat, lon)` endpoint of `main.py`: returns the
snapshot tagged "open-meteo" on upstream success, and raises
`HTTPException(status_code=502)` on any `requests.RequestException`
(transport, status or decode failure). -/
def current_weather (upstream : Except Unit OMPayload) :
    Except Nat WeatherResult :=
  match upstream with
  | .ok data => .ok ⟨"open-meteo", data.current_weather⟩
  | .error _ => .error 502

/-- Rounding to one decimal place, Python `round(x, 1)` (the exact tie
behaviour at a half is immaterial to the properties proved here). -/
def round1 (q : ℚ) : ℚ := ((round (10 * q) : ℤ) : ℚ) / 10

/-- The fallback base temperature of the forecast synthesizer:
`cw_resp.json().get("current_weather", {}).get("temperature", 20)`, with 20
also when the secondary current-weather call itself fails. -/
def fallbackTemp (secondary : Except Unit OMPayload) : ℚ :=
  match secondary with
  | .error _ => 20
  | .ok p =>
    match p.current_weather with
    | none => 20
    | some cw =>
      match cw.temperature with
      | none => 20
      | some t => t

/-- The per-day arrays of the `/forecast` response (`"time"` modelled as
day numbers: `baseDay + i` stands for the ISO date `today + i` days, UTC). -/
structure ForecastDaily where
  time : List Nat
  temperature_2m_max : List ℚ
  temperature_2m_min : List ℚ
  precipitation_sum : List ℚ
deriving DecidableEq

/-- The `/forecast` response: a source tag and the daily arrays. -/
structure ForecastResult where
  source : String
  daily : ForecastDaily
deriving DecidableEq

/-- The `forecast(lat, lon, days)` endpoint of `main.py`: the upstream daily
payload tagged "open-meteo" on success; on failure, the synthesized naive
forecast from today's date and the (possibly defaulted) current temperature,
with the random draws `random.uniform(-3, 3)` and `random.uniform(0, 5)`
supplied as sequences by the environment. -/
def forecast (days : Nat) (primary : Except Unit ForecastDaily)
    (secondary : Except Unit OMPayload) (baseDay : Nat)
    (randMax randMin randPrec : Nat → ℚ) : ForecastResult :=
  match primary with
  | .ok d => ⟨"open-meteo", d⟩
  | .error _ =>
    ⟨"fallback",
     ⟨(List.range days).map (fun i => baseDay + i),
      (List.range days).map
        (fun i => round1 (fallbackTemp secondary + 5 + randMax i)),
      (List.range days).map
        (fun i => round1 (fallbackTemp secondary - 2 + randMin i)),
      (List.range days).map (fun i => round1 (max 0 (randPrec i)))⟩⟩

/-- A location record of the `/cities` flow, reduced to its `"boundary"`
dict, itself reduced to its `"city"` field. -/
structure LocationRecord where
  boundary : Option (Option String)
deriving DecidableEq

/-- The guard `if loc.get("boundary") and loc["boundary"].get("city")`:
yields the city name when the boundary and its city field are truthy. -/
def extractCity (loc : LocationRecord) : Option String :=
  match loc.boundary with
  | some (some c) => if c = "" then none else some c
  | _ => none

/-- All city names extracted from the location records, in order. -/
def extractCities (rs : List LocationRecord) : List String :=
  rs.filterMap extractCity

/-- Insertion into a strictly sorted duplicate-free list: the building block
of the observation of Python's `sorted(list(set(...)))`. -/
def insertUniq (x : String) : List String → List String
  | [] => [x]
  | y :: ys =>
    if x = y then y :: ys
    else if x < y then x :: y :: ys
    else y :: insertUniq x ys

/-- The value of `sorted(list(cities))` for the set built by the loop: the
distinct extracted names in strictly ascending order. -/
def sortedDedup (l : List String) : List String :=
  l.foldl (fun acc x => insertUniq x acc) []

/-- The `get_cities(country)` endpoint of `main.py`: fetch the locations
through `fetch_and_cache` (with `{"results": []}` as fetch fallback),
collect the truthy boundary city names into a set, sort it, and return the
fixed fallback city list when no name was extracted. -/
def get_cities (country : String)
    (upstream : Except Unit (List LocationRecord)) (now : Int)
    (cache : Cache (List LocationRecord)) :
    List String × Cache (List LocationRecord) :=
  let fr := fetch_and_cache upstream
    ("https://api.openaq.org/v3/locations?country=" ++ country ++ "&limit=1000")
    (some ("cities_" ++ country)) [] now cache
  let sorted_cities := sortedDedup (extractCities fr.data)
  if sorted_cities.isEmpty then (["Tashkent", "New York", "Delhi"], fr.cache)
  else (sorted_cities, fr.cache)

lemma alookup_cachePut_self {α : Type} (c : Cache α) (k : String) (d : α)
    (t : Int) : alookup (cachePut c k d t) k = some ⟨d, t⟩ := by
  induction c with
  | nil => simp [cachePut, alookup]
  | cons e rest ih =>
    obtain ⟨q, e⟩ := e
    by_cases hq : q = k
    · simp [cachePut, hq, alookup]
    · simp [cachePut, hq, alookup, ih]

lemma lookupFresh_cachePut_self {α : Type} (c : Cache α) (k : String) (d : α)
    (t now : Int) :
    lookupFresh (cachePut c k d t) k now =
      if now - t < CACHE_TTL then some d else none := by
  simp [lookupFresh, alookup_cachePut_self]

/-- Staleness is monotone in time: a key with no fresh entry now has no fresh
entry at any later time (the cache unchanged). -/
lemma lookupFresh_none_mono {α : Type} (c : Cache α) (k : String)
    (t t2 : Int) (h : lookupFresh c k t = none) (hle : t ≤ t2) :
    lookupFresh c k t2 = none := by
  unfold lookupFresh at h ⊢
  cases he : alookup c k with
  | none => rfl
  | some e =>
    rw [he] at h
    have h2 : (if t - e.timestamp < CACHE_TTL then some e.data else none) = none :=
      h
    show (if t2 - e.timestamp < CACHE_TTL then some e.data else none) = none
    by_cases hf : t - e.timestamp < CACHE_TTL
    · simp [hf] at h2
    · have hf2 : ¬ t2 - e.timestamp < CACHE_TTL := by
        simp only [CACHE_TTL] at hf ⊢
        omega
      simp [hf2]

/-- C1: when the cache has no fresh entry for the effective key and the
upstream call fails, `fetch_and_cache` returns the caller-supplied fallback
verbatim with the cache store unchanged (one upstream attempt was made), and
every later call under the same key again reaches upstream (exactly one
upstream call), instead of replaying the fallback from cache. -/
theorem fetch_failure_returns_fallback_uncached {α : Type} (url : String)
    (ck : Option String) (fb : α) (now : Int) (cache : Cache α)
    (hmiss : lookupFresh cache (ck.getD url) now = none) :
    fetch_and_cache (Except.error ()) url ck fb now cache = ⟨fb, cache, 1⟩ ∧
    ∀ (up2 : Except Unit α) (fb2 : α) (now2 : Int), now ≤ now2 →
      (fetch_and_cache up2 url ck fb2 now2 cache).upstream_calls = 1 := by
  refine ⟨by simp [fetch_and_cache, hmiss], ?_⟩
  intro up2 fb2 now2 h2
  have h3 := lookupFresh_none_mono cache (ck.getD url) now now2 hmiss h2
  cases up2 <;> simp [fetch_and_cache, h3]

/-- Witness for C1 at a concrete input: upstream fails, key "k", empty cache. -/
theorem fetch_failure_returns_fallback_uncached_witness :
    fetch_and_cache (Except.error ()) "u" (some "k") (37 : Nat) 5 [] =
      ⟨37, [], 1⟩ ∧
    (fetch_and_cache (Except.ok 9) "u" (some "k") (37 : Nat) 6 []).upstream_calls
      = 1 := by
  have h := fetch_failure_returns_fallback_uncached "u" (some "k") (37 : Nat) 5
    [] (by rfl)
  exact ⟨h.1, h.2 (Except.ok 9) 37 6 (by decide)⟩

/-- C5: after a store of payload `d` under key `k` at time `t`, a fetch at
`now` with `now - t < 3600` returns the stored payload with no upstream call
and the cache untouched; a fetch with `now - t ≥ 3600` treats the entry as a
miss (the stale payload is never served) and performs exactly one upstream
call, whose parsed result (on success) replaces the entry, or whose failure
yields the fallback. -/
theorem fetch_ttl_freshness {α : Type} (up : Except Unit α) (url k : String)
    (fb d : α) (t now : Int) (cache : Cache α) (hord : t ≤ now) :
    (now - t < 3600 →
      fetch_and_cache up url (some k) fb now (cachePut cache k d t) =
        ⟨d, cachePut cache k d t, 0⟩) ∧
    (3600 ≤ now - t →
      fetch_and_cache up url (some k) fb now (cachePut cache k d t) =
        match up with
        | Except.ok nd => ⟨nd, cachePut (cachePut cache k d t) k nd now, 1⟩
        | Except.error _ => ⟨fb, cachePut cache k d t, 1⟩) := by
  constructor
  · intro hfresh
    have : lookupFresh (cachePut cache k d t) k now = some d := by
      rw [lookupFresh_cachePut_self]
      simp [CACHE_TTL, hfresh]
    simp [fetch_and_cache, this]
  · intro hstale
    have : lookupFresh (cachePut cache k d t) k now = none := by
      rw [lookupFresh_cachePut_self]
      have : ¬ now - t < CACHE_TTL := by simp [CACHE_TTL]; omega
      simp [this]
    cases up <;> simp [fetch_and_cache, this]

/-- Witness for C5 at concrete inputs: store 42 at t=50; a fetch at t=100 is
served from cache with no upstream call, a fetch at t=5000 refetches. -/
theorem fetch_ttl_freshness_witness :
    fetch_and_cache (Except.ok 7) "u" (some "k") (0 : Nat) 100
        (cachePut [] "k" 42 50) = ⟨42, cachePut [] "k" 42 50, 0⟩ ∧
    fetch_and_cache (Except.ok 7) "u" (some "k") (0 : Nat) 5000
        (cachePut [] "k" 42 50) =
      ⟨7, cachePut (cachePut [] "k" 42 50) "k" 7 5000, 1⟩ := by
  refine ⟨?_, ?_⟩
  · exact (fetch_ttl_freshness (Except.ok 7) "u" "k" 0 42 50 100 [] (by decide)).1
      (by decide)
  · exact (fetch_ttl_freshness (Except.ok 7) "u" "k" 0 42 50 5000 [] (by decide)).2
      (by decide)

lemma alookup_addValue (acc : List (String × List ℚ)) (q : String) (v : ℚ)
    (p : String) :
    alookup (addValue acc q v) p =
      if q = p then some ((alookup acc q).getD [] ++ [v])
      else alookup acc p := by
  induction acc with
  | nil => by_cases h : q = p <;> simp [addValue, alookup, h]
  | cons e rest ih =>
    obtain ⟨r, vs⟩ := e
    by_cases hrq : r = q
    · subst hrq
      by_cases hrp : r = p <;> simp [addValue, alookup, hrp]
    · by_cases hrp : r = p
      · subst hrp
        have hqp : ¬ q = r := fun h2 => hrq h2.symm
        simp [addValue, alookup, hrq, hqp]
      · simp [addValue, alookup, hrq, hrp, ih]

lemma alookup_foldl_addValue (ps : List (String × ℚ))
    (acc : List (String × List ℚ)) (p : String) :
    alookup (ps.foldl (fun a pv => addValue a pv.1 pv.2) acc) p =
      match alookup acc p with
      | some vs => some (vs ++ valuesFor ps p)
      | none =>
        if valuesFor ps p = [] then none else some (valuesFor ps p) := by
  induction ps generalizing acc with
  | nil => cases h : alookup acc p <;> simp [valuesFor, h]
  | cons pv rest ih =>
    obtain ⟨q, v⟩ := pv
    rw [List.foldl_cons, ih, alookup_addValue]
    by_cases hqp : q = p
    · subst hqp
      cases h : alookup acc q with
      | none => simp [h, valuesFor]
      | some vs => simp [h, valuesFor]
    · cases h : alookup acc p <;> simp [h, hqp, valuesFor]

lemma alookup_fold_values (ps : List (String × ℚ)) (p : String) :
    alookup (ps.foldl (fun a pv => addValue a pv.1 pv.2) []) p =
      if valuesFor ps p = [] then none else some (valuesFor ps p) := by
  rw [alookup_foldl_addValue]
  simp [alookup]

lemma mem_addValue_ne_nil (acc : List (String × List ℚ)) (q : String) (v : ℚ)
    (h : ∀ e ∈ acc, e.2 ≠ []) :
    ∀ e ∈ addValue acc q v, e.2 ≠ [] := by
  induction acc with
  | nil => simp [addValue]
  | cons a rest ih =>
    obtain ⟨r, vs⟩ := a
    intro e he
    by_cases hrq : r = q
    · subst hrq
      simp [addValue] at he
      rcases he with he | he
      · subst he; simp
      · exact h e (List.mem_cons_of_mem _ he)
    · simp [addValue, hrq] at he
      rcases he with he | he
      · subst he
        exact h (r, vs) (by simp)
      · exact ih (fun e2 he2 => h e2 (List.mem_cons_of_mem _ he2)) e he

lemma fold_entries_ne_nil (ps : List (String × ℚ))
    (acc : List (String × List ℚ)) (h : ∀ e ∈ acc, e.2 ≠ []) :
    ∀ e ∈ ps.foldl (fun a pv => addValue a pv.1 pv.2) acc, e.2 ≠ [] := by
  induction ps generalizing acc with
  | nil => simpa using h
  | cons pv rest ih => exact ih _ (mem_addValue_ne_nil _ _ _ h)

lemma filter_ne_nil_id (l : List (String × List ℚ))
    (h : ∀ e ∈ l, e.2 ≠ []) :
    l.filter (fun e => !e.2.isEmpty) = l := by
  induction l with
  | nil => rfl
  | cons a rest ih =>
    have ha : a.2.isEmpty = false := by
      cases h2 : a.2 with
      | nil => exact absurd h2 (h a (by simp))
      | cons x xs => rfl
    simp [List.filter_cons, ha,
      ih (fun e he => h e (List.mem_cons_of_mem _ he))]

lemma alookup_map_mean (l : List (String × List ℚ)) (p : String) :
    alookup (l.map (fun e => (e.1, e.2.sum / (e.2.length : ℚ)))) p =
      (alookup l p).map (fun vs => vs.sum / (vs.length : ℚ)) := by
  induction l with
  | nil => rfl
  | cons a rest ih =>
    obtain ⟨q, vs⟩ := a
    by_cases h : q = p <;> simp [alookup, h, ih]

lemma fetchedStations_cons (loc : AQLocation) (locs : List AQLocation)
    (latest : String → Except Unit (List Station)) :
    fetchedStations (loc :: locs) latest =
      (match locationName loc with
       | none => []
       | some nm =>
         match latest nm with
         | Except.ok ss => ss
         | Except.error _ => []) ++
      fetchedStations locs latest := by
  simp [fetchedStations]

lemma foldl_stepStation (ss : List Station)
    (st : List (String × List ℚ) × List Station) :
    ss.foldl stepStation st =
      ((stationMeasurements ss).foldl (fun a pv => addValue a pv.1 pv.2) st.1,
       st.2 ++ ss) := by
  induction ss generalizing st with
  | nil => simp [stationMeasurements]
  | cons s rest ih =>
    rw [List.foldl_cons, ih]
    simp [stepStation, stationMeasurements, List.foldl_append, List.foldl_map]

lemma foldl_stepLoc (locs : List AQLocation)
    (latest : String → Except Unit (List Station))
    (st : List (String × List ℚ) × List Station) :
    locs.foldl (stepLoc latest) st =
      ((stationMeasurements (fetchedStations locs latest)).foldl
         (fun a pv => addValue a pv.1 pv.2) st.1,
       st.2 ++ fetchedStations locs latest) := by
  induction locs generalizing st with
  | nil => simp [fetchedStations, stationMeasurements]
  | cons loc rest ih =>
    rw [List.foldl_cons, ih, fetchedStations_cons]
    cases hn : locationName loc with
    | none => simp [stepLoc, hn]
    | some nm =>
      cases hl : latest nm with
      | error e => simp [stepLoc, hn, hl]
      | ok ss =>
        simp only [stepLoc, hn, hl, foldl_stepStation]
        simp [stationMeasurements, List.foldl_append, List.append_assoc]

lemma aq_compute_locations (locs : List AQLocation)
    (latest : String → Except Unit (List Station)) (utc_now : Int) :
    (aq_compute locs latest utc_now).locations = fetchedStations locs latest := by
  simp [aq_compute, foldl_stepLoc]

lemma aq_compute_aggregated (locs : List AQLocation)
    (latest : String → Except Unit (List Station)) (utc_now : Int)
    (p : String) :
    alookup (aq_compute locs latest utc_now).aggregated p =
      (if valuesFor (stationMeasurements (fetchedStations locs latest)) p = []
       then none
       else
         some
           ((valuesFor (stationMeasurements (fetchedStations locs latest)) p).sum /
             ((valuesFor (stationMeasurements (fetchedStations locs latest)) p).length :
               ℚ))) := by
  have hst := foldl_stepLoc locs latest ([], [])
  show alookup (((locs.foldl (stepLoc latest) ([], [])).1.filter
      (fun e => !e.2.isEmpty)).map
      (fun e => (e.1, e.2.sum / (e.2.length : ℚ)))) p = _
  rw [hst]
  rw [filter_ne_nil_id _ (fold_entries_ne_nil _ _ (by simp))]
  rw [alookup_map_mean, alookup_fold_values]
  by_cases hv : valuesFor (stationMeasurements (fetchedStations locs latest)) p = [] <;>
    simp [hv]

/-- C2: on the successful aggregation path, a parameter appears in the
aggregated mapping exactly when at least one collected station reading
reports it, and its value is the arithmetic mean (sum divided by count) of
all reported values for it; parameters with zero contributing values are
absent, never zero or null. -/
theorem aggregated_mean (city : String) (now utc_now : Int)
    (cache : Cache AQData) (locs : List AQLocation)
    (latest : String → Except Unit (List Station))
    (hmiss : lookupFresh cache ("air_quality_" ++ city) now = none)
    (hne : locs ≠ []) :
    (air_quality city now utc_now cache (Except.ok locs) latest).1 =
      AQResponse.result (aq_compute locs latest utc_now) ∧
    ∀ p : String,
      alookup (aq_compute locs latest utc_now).aggregated p =
        (if valuesFor (stationMeasurements (fetchedStations locs latest)) p = []
         then none
         else
           some
             ((valuesFor (stationMeasurements (fetchedStations locs latest)) p).sum /
               ((valuesFor (stationMeasurements (fetchedStations locs latest))
                   p).length : ℚ))) := by
  constructor
  · cases locs with
    | nil => exact absurd rfl hne
    | cons a l => simp [air_quality, hmiss]
  · intro p
    exact aq_compute_aggregated locs latest utc_now p

/-- Witness for C2: one resolved location whose station records report
pm25 = 10, 20, 30; the aggregated pm25 value is 20. -/
theorem aggregated_mean_witness :
    (air_quality "T" 0 9 []
        (Except.ok [⟨some "A", none⟩])
        (fun _ =>
          Except.ok [⟨[⟨"pm25", 10⟩]⟩, ⟨[⟨"pm25", 20⟩]⟩, ⟨[⟨"pm25", 30⟩]⟩])).1 =
      AQResponse.result
        (aq_compute [⟨some "A", none⟩]
          (fun _ =>
            Except.ok [⟨[⟨"pm25", 10⟩]⟩, ⟨[⟨"pm25", 20⟩]⟩, ⟨[⟨"pm25", 30⟩]⟩]) 9) ∧
    alookup
        (aq_compute [⟨some "A", none⟩]
          (fun _ =>
            Except.ok [⟨[⟨"pm25", 10⟩]⟩, ⟨[⟨"pm25", 20⟩]⟩, ⟨[⟨"pm25", 30⟩]⟩])
          9).aggregated "pm25" = some 20 := by
  have h := aggregated_mean "T" 0 9 [] [⟨some "A", none⟩]
    (fun _ =>
      Except.ok [⟨[⟨"pm25", 10⟩]⟩, ⟨[⟨"pm25", 20⟩]⟩, ⟨[⟨"pm25", 30⟩]⟩])
    rfl (by simp)
  refine ⟨h.1, (h.2 "pm25").trans ?_⟩
  have hv : valuesFor
      (stationMeasurements
        (fetchedStations [⟨some "A", none⟩]
          (fun _ =>
            Except.ok [⟨[⟨"pm25", 10⟩]⟩, ⟨[⟨"pm25", 20⟩]⟩, ⟨[⟨"pm25", 30⟩]⟩])))
      "pm25" = [10, 20, 30] := by decide
  rw [hv]
  norm_num
  simp

/-- C3: on the successful aggregation path each station's latest-readings
failure is caught and that station omitted with no per-station fallback:
the returned station-record list is exactly the concatenation, in the order
the locations were resolved, of the record lists of the successful
latest-readings calls. -/
theorem partial_failure_isolation (city : String) (now utc_now : Int)
    (cache : Cache AQData) (locs : List AQLocation)
    (latest : String → Except Unit (List Station))
    (hmiss : lookupFresh cache ("air_quality_" ++ city) now = none)
    (hne : locs ≠ []) :
    (air_quality city now utc_now cache (Except.ok locs) latest).1 =
      AQResponse.result (aq_compute locs latest utc_now) ∧
    (aq_compute locs latest utc_now).locations =
      locs.flatMap (fun loc =>
        match locationName loc with
        | none => []
        | some nm =>
          match latest nm with
          | Except.ok ss => ss
          | Except.error _ => []) := by
  constructor
  · cases locs with
    | nil => exact absurd rfl hne
    | cons a l => simp [air_quality, hmiss]
  · rw [aq_compute_locations]
    rfl

/-- Witness for C3: three resolved stations where the second one's fetch
fails; the result carries exactly the two successful stations' records. -/
theorem partial_failure_isolation_witness :
    (air_quality "c" 0 0 []
        (Except.ok [⟨some "A", none⟩, ⟨some "B", none⟩, ⟨some "C", none⟩])
        (fun nm =>
          if nm = "B" then Except.error ()
          else Except.ok [⟨[⟨"pm25", 10⟩]⟩])).1 =
      AQResponse.result
        (aq_compute [⟨some "A", none⟩, ⟨some "B", none⟩, ⟨some "C", none⟩]
          (fun nm =>
            if nm = "B" then Except.error ()
            else Except.ok [⟨[⟨"pm25", 10⟩]⟩]) 0) ∧
    (aq_compute [⟨some "A", none⟩, ⟨some "B", none⟩, ⟨some "C", none⟩]
        (fun nm =>
          if nm = "B" then Except.error ()
          else Except.ok [⟨[⟨"pm25", 10⟩]⟩]) 0).locations.length = 2 := by
  have h := partial_failure_isolation "c" 0 0 []
    [⟨some "A", none⟩, ⟨some "B", none⟩, ⟨some "C", none⟩]
    (fun nm =>
      if nm = "B" then Except.error () else Except.ok [⟨[⟨"pm25", 10⟩]⟩])
    rfl (by simp)
  exact ⟨h.1, by decide⟩

/-- C4: the endpoint produces the 404 not-found response exactly when the
cache has no fresh entry for the city and the station-lookup call succeeds
with an empty list of locations; no other condition produces it. -/
theorem notfound_iff (city : String) (now utc_now : Int)
    (cache : Cache AQData) (lookup : Except Unit (List AQLocation))
    (latest : String → Except Unit (List Station)) :
    (air_quality city now utc_now cache lookup latest).1 =
        AQResponse.notFound ↔
      lookupFresh cache ("air_quality_" ++ city) now = none ∧
        lookup = Except.ok ([] : List AQLocation) := by
  cases hl : lookupFresh cache ("air_quality_" ++ city) now with
  | some d => simp [air_quality, hl]
  | none =>
    cases lookup with
    | error e => simp [air_quality, hl]
    | ok locs =>
      cases locs with
      | nil => simp [air_quality, hl]
      | cons a l => simp [air_quality, hl]

/-- C7: when the cache has no fresh entry and the station-lookup call fails
with a transport/status failure, the endpoint returns, without raising, the
fixed dummy payload whose aggregated mapping is pm25 = 20, pm10 = 35,
no2 = 15 and whose station-record list is empty, leaving the cache as it
was. -/
theorem lookup_failure_dummy (city : String) (now utc_now : Int)
    (cache : Cache AQData) (latest : String → Except Unit (List Station))
    (hmiss : lookupFresh cache ("air_quality_" ++ city) now = none) :
    air_quality city now utc_now cache (Except.error ()) latest =
      (AQResponse.result
         ⟨[("pm25", 20), ("pm10", 35), ("no2", 15)], utc_now, []⟩,
       cache) := by
  simp [air_quality, hmiss]

/-- Witness for C7 at a concrete input. -/
theorem lookup_failure_dummy_witness :
    air_quality "X" 0 7 [] (Except.error ()) (fun _ => Except.ok []) =
      (AQResponse.result
         ⟨[("pm25", 20), ("pm10", 35), ("no2", 15)], 7, []⟩,
       []) :=
  lookup_failure_dummy "X" 0 7 [] (fun _ => Except.ok []) rfl

/-- C10: on a cache miss, both the dummy-fallback path (lookup transport
failure) and the 404 path (empty lookup result) leave the cache unchanged,
so the key stays a miss at every later time and the next call performs the
upstream lookup again; only the successful aggregation path writes the
per-city cache entry. -/
theorem failure_paths_do_not_cache (city : String) (now utc_now : Int)
    (cache : Cache AQData) (lookup : Except Unit (List AQLocation))
    (latest : String → Except Unit (List Station))
    (hmiss : lookupFresh cache ("air_quality_" ++ city) now = none)
    (hfail : lookup = Except.error () ∨
      lookup = Except.ok ([] : List AQLocation)) :
    (air_quality city now utc_now cache lookup latest).2 = cache ∧
    (∀ now2 : Int, now ≤ now2 →
      lookupFresh cache ("air_quality_" ++ city) now2 = none) ∧
    ∀ locs : List AQLocation, locs ≠ [] →
      (air_quality city now utc_now cache (Except.ok locs) latest).2 =
        cachePut cache ("air_quality_" ++ city)
          (aq_compute locs latest utc_now) now := by
  refine ⟨?_, fun now2 h2 => lookupFresh_none_mono _ _ _ _ hmiss h2, ?_⟩
  · rcases hfail with h | h <;> subst h <;> simp [air_quality, hmiss]
  · intro locs hne
    cases locs with
    | nil => exact absurd rfl hne
    | cons a l => simp [air_quality, hmiss]

/-- Witness for C10 at concrete inputs: both failure paths leave the empty
cache empty. -/
theorem failure_paths_do_not_cache_witness :
    (air_quality "Y" 0 3 [] (Except.error ())
        (fun _ => Except.ok [])).2 = [] ∧
    (air_quality "Y" 0 3 [] (Except.ok [])
        (fun _ => Except.ok [])).2 = [] :=
  ⟨(failure_paths_do_not_cache "Y" 0 3 [] (Except.error ())
      (fun _ => Except.ok []) rfl (Or.inl rfl)).1,
   (failure_paths_do_not_cache "Y" 0 3 [] (Except.ok [])
      (fun _ => Except.ok []) rfl (Or.inr rfl)).1⟩

/-- C6 counterexample: at the concrete input where the Open-Meteo upstream
call fails, `current_weather` raises the 502 error instead of returning a
value, refuting the claim that every operation of the surface converts
upstream failures into returned values. -/
theorem current_weather_raises_on_failure :
    current_weather (Except.error ()) = Except.error 502 ∧
    (current_weather (Except.error ())).isOk = false :=
  ⟨rfl, rfl⟩

/-- C6 (amended): the operations return plain structured values and never
raise, except the air-quality 404 not-found signal and `current_weather`,
which raises `HTTPException(502)` exactly when its upstream call fails and
otherwise returns the snapshot tagged "open-meteo". -/
theorem error_surface (u : Except Unit OMPayload) :
    (u = Except.error () → current_weather u = Except.error 502) ∧
    (∀ p : OMPayload, u = Except.ok p →
      current_weather u = Except.ok ⟨"open-meteo", p.current_weather⟩) ∧
    ∀ (city : String) (now utc_now : Int) (cache : Cache AQData)
      (lookup : Except Unit (List AQLocation))
      (latest : String → Except Unit (List Station)),
      (air_quality city now utc_now cache lookup latest).1 =
          AQResponse.notFound ∨
        ∃ d, (air_quality city now utc_now cache lookup latest).1 =
          AQResponse.result d := by
  refine ⟨fun h => by subst h; rfl, fun p h => by subst h; rfl, ?_⟩
  intro city now utc_now cache lookup latest
  cases hr : (air_quality city now utc_now cache lookup latest).1 with
  | result d => exact Or.inr ⟨d, rfl⟩
  | notFound => exact Or.inl rfl

/-- Witness for the amended C6 at concrete inputs: failure raises 502,
success returns the tagged snapshot. -/
theorem error_surface_witness :
    current_weather (Except.error ()) = Except.error 502 ∧
    current_weather (Except.ok ⟨some ⟨some 21, some 3, some 1⟩⟩) =
      Except.ok ⟨"open-meteo", some ⟨some 21, some 3, some 1⟩⟩ :=
  ⟨(error_surface (Except.error ())).1 rfl,
   (error_surface (Except.ok ⟨some ⟨some 21, some 3, some 1⟩⟩)).2.1 _ rfl⟩

lemma round1_nonneg (q : ℚ) (h : 0 ≤ q) : 0 ≤ round1 q := by
  unfold round1
  have h10 : (0 : ℤ) ≤ round (10 * q) := by
    rw [round_eq]
    refine Int.floor_nonneg.2 (by linarith)
  have : (0 : ℚ) ≤ ((round (10 * q) : ℤ) : ℚ) := by exact_mod_cast h10
  linarith

/-- C8: for every requested day count in 1..16 and every drawn values of
the bounded random perturbations, the synthesized fallback forecast is
tagged "fallback", all four per-day sequences have length exactly `days`,
the i-th date is today plus i days, the i-th maximum temperature is the
base temperature plus 5 plus that day's perturbation rounded to one
decimal, and every precipitation value is nonnegative. -/
theorem forecast_fallback_series (days baseDay : Nat)
    (secondary : Except Unit OMPayload)
    (randMax randMin randPrec : Nat → ℚ)
    (h1 : 1 ≤ days) (h16 : days ≤ 16)
    (hmax : ∀ i, -3 ≤ randMax i ∧ randMax i ≤ 3)
    (hprec : ∀ i, 0 ≤ randPrec i ∧ randPrec i ≤ 5) :
    (forecast days (Except.error ()) secondary baseDay
        randMax randMin randPrec).source = "fallback" ∧
    (forecast days (Except.error ()) secondary baseDay
        randMax randMin randPrec).daily.time.length = days ∧
    (forecast days (Except.error ()) secondary baseDay
        randMax randMin randPrec).daily.temperature_2m_max.length = days ∧
    (forecast days (Except.error ()) secondary baseDay
        randMax randMin randPrec).daily.temperature_2m_min.length = days ∧
    (forecast days (Except.error ()) secondary baseDay
        randMax randMin randPrec).daily.precipitation_sum.length = days ∧
    (∀ i, i < days →
      (forecast days (Except.error ()) secondary baseDay
          randMax randMin randPrec).daily.time[i]? = some (baseDay + i)) ∧
    (∀ i, i < days →
      (forecast days (Except.error ()) secondary baseDay
          randMax randMin randPrec).daily.temperature_2m_max[i]? =
        some (round1 (fallbackTemp secondary + 5 + randMax i)) ∧
      -3 ≤ randMax i ∧ randMax i ≤ 3) ∧
    ∀ q ∈ (forecast days (Except.error ()) secondary baseDay
        randMax randMin randPrec).daily.precipitation_sum, 0 ≤ q := by
  refine ⟨rfl, by simp [forecast], by simp [forecast], by simp [forecast],
    by simp [forecast], ?_, ?_, ?_⟩
  · intro i hi
    show ((List.range days).map (fun i => baseDay + i))[i]? = some (baseDay + i)
    rw [List.getElem?_map, List.getElem?_range hi]
    rfl
  · intro i hi
    refine ⟨?_, (hmax i).1, (hmax i).2⟩
    show ((List.range days).map
        (fun i => round1 (fallbackTemp secondary + 5 + randMax i)))[i]? = _
    rw [List.getElem?_map, List.getElem?_range hi]
    rfl
  · intro q hq
    have hq2 : q ∈ (List.range days).map
        (fun i => round1 (max 0 (randPrec i))) := hq
    rcases List.mem_map.1 hq2 with ⟨i, _, rfl⟩
    exact round1_nonneg _ (le_max_left 0 _)

/-- Witness for C8 at a concrete input: 5 days, perturbations all 1 and
draws all 2, secondary call failing (base temperature 20). -/
theorem forecast_fallback_series_witness :
    (forecast 5 (Except.error ()) (Except.error ()) 100
        (fun _ => 1) (fun _ => 1) (fun _ => 2)).source = "fallback" ∧
    (forecast 5 (Except.error ()) (Except.error ()) 100
        (fun _ => 1) (fun _ => 1) (fun _ => 2)).daily.time.length = 5 ∧
    (forecast 5 (Except.error ()) (Except.error ()) 100
        (fun _ => 1) (fun _ => 1) (fun _ => 2)).daily.time[0]? = some 100 := by
  have h := forecast_fallback_series 5 100 (Except.error ())
    (fun _ => 1) (fun _ => 1) (fun _ => 2) (by norm_num) (by norm_num)
    (fun i => by norm_num) (fun i => by norm_num)
  exact ⟨h.1, h.2.1, h.2.2.2.2.2.1 0 (by norm_num)⟩

lemma mem_insertUniq (x a : String) (l : List String) :
    a ∈ insertUniq x l ↔ a = x ∨ a ∈ l := by
  induction l with
  | nil => simp [insertUniq]
  | cons y ys ih =>
    by_cases hxy : x = y
    · subst hxy
      simp [insertUniq]
    · by_cases hlt : x < y
      · simp [insertUniq, hxy, hlt]
      · simp [insertUniq, hxy, hlt, ih]
        tauto

lemma pairwise_insertUniq (x : String) (l : List String)
    (h : l.Pairwise (· < ·)) : (insertUniq x l).Pairwise (· < ·) := by
  induction l with
  | nil => simp [insertUniq]
  | cons y ys ih =>
    rcases List.pairwise_cons.1 h with ⟨hy, hys⟩
    by_cases hxy : x = y
    · subst hxy
      simpa [insertUniq] using h
    · by_cases hlt : x < y
      · simp only [insertUniq, if_neg hxy, if_pos hlt]
        refine List.pairwise_cons.2 ⟨?_, h⟩
        intro b hb
        rcases List.mem_cons.1 hb with rfl | hb2
        · exact hlt
        · exact hlt.trans (hy b hb2)
      · have hgt : y < x := by
          rcases lt_trichotomy x y with h2 | h2 | h2
          · exact absurd h2 hlt
          · exact absurd h2 hxy
          · exact h2
        simp only [insertUniq, if_neg hxy, if_neg hlt]
        refine List.pairwise_cons.2 ⟨?_, ih hys⟩
        intro b hb
        rcases (mem_insertUniq x b ys).1 hb with rfl | hb2
        · exact hgt
        · exact hy b hb2

lemma foldl_insertUniq_mem (l acc : List String) (a : String) :
    a ∈ l.foldl (fun acc x => insertUniq x acc) acc ↔ a ∈ acc ∨ a ∈ l := by
  induction l generalizing acc with
  | nil => simp
  | cons x xs ih =>
    rw [List.foldl_cons, ih]
    simp [mem_insertUniq]
    tauto

lemma foldl_insertUniq_pairwise (l acc : List String)
    (h : acc.Pairwise (· < ·)) :
    (l.foldl (fun acc x => insertUniq x acc) acc).Pairwise (· < ·) := by
  induction l generalizing acc with
  | nil => simpa using h
  | cons x xs ih => exact ih _ (pairwise_insertUniq x acc h)

lemma mem_sortedDedup (l : List String) (a : String) :
    a ∈ sortedDedup l ↔ a ∈ l := by
  simp [sortedDedup, foldl_insertUniq_mem]

lemma pairwise_sortedDedup (l : List String) :
    (sortedDedup l).Pairwise (· < ·) :=
  foldl_insertUniq_pairwise l [] (by simp)

lemma sortedDedup_nil_iff (l : List String) : sortedDedup l = [] ↔ l = [] := by
  constructor
  · intro h
    cases l with
    | nil => rfl
    | cons x xs =>
      have hx : x ∈ sortedDedup (x :: xs) := (mem_sortedDedup _ _).2 (by simp)
      rw [h] at hx
      cases hx
  · intro h
    subst h
    rfl

/-- C9: on a cache miss, the cities operation returns the fixed fallback
list [Tashkent, New York, Delhi] when zero city names are extracted — both
when the upstream locations call fails (the fetch falls back to an empty
result set) and when it succeeds with no truthy boundary city — and
otherwise returns the extracted names deduplicated (strictly ascending
order and same membership as the extraction). -/
theorem cities_sorted_or_fallback (country : String)
    (upstream : Except Unit (List LocationRecord)) (now : Int)
    (cache : Cache (List LocationRecord))
    (hmiss : lookupFresh cache ("cities_" ++ country) now = none) :
    (upstream = Except.error () →
      (get_cities country upstream now cache).1 =
        ["Tashkent", "New York", "Delhi"]) ∧
    ∀ rs : List LocationRecord, upstream = Except.ok rs →
      (extractCities rs = [] →
        (get_cities country upstream now cache).1 =
          ["Tashkent", "New York", "Delhi"]) ∧
      (extractCities rs ≠ [] →
        (get_cities country upstream now cache).1 =
          sortedDedup (extractCities rs) ∧
        (get_cities country upstream now cache).1.Pairwise (· < ·) ∧
        ∀ c : String,
          c ∈ (get_cities country upstream now cache).1 ↔
            c ∈ extractCities rs) := by
  constructor
  · intro h
    subst h
    simp [get_cities, fetch_and_cache, hmiss, extractCities, sortedDedup]
  · intro rs h
    subst h
    constructor
    · intro he
      simp [get_cities, fetch_and_cache, hmiss, he, sortedDedup]
    · intro hne
      have hsne : sortedDedup (extractCities rs) ≠ [] :=
        fun h2 => hne ((sortedDedup_nil_iff _).1 h2)
      have hred : (get_cities country (Except.ok rs) now cache).1 =
          sortedDedup (extractCities rs) := by
        simp [get_cities, fetch_and_cache, hmiss, hsne]
      refine ⟨hred, hred ▸ pairwise_sortedDedup _, fun c => ?_⟩
      rw [hred, mem_sortedDedup]

/-- Witness for C9 at concrete inputs: two distinct names among three
records yield the sorted deduplicated names (containing "Andijan"); a
failed upstream yields the fixed fallback list. -/
theorem cities_sorted_or_fallback_witness :
    (get_cities "UZ"
        (Except.ok [⟨some (some "Tashkent")⟩, ⟨some (some "Andijan")⟩,
          ⟨some (some "Tashkent")⟩]) 0 []).1 =
      sortedDedup (extractCities [⟨some (some "Tashkent")⟩,
        ⟨some (some "Andijan")⟩, ⟨some (some "Tashkent")⟩]) ∧
    "Andijan" ∈ (get_cities "UZ"
        (Except.ok [⟨some (some "Tashkent")⟩, ⟨some (some "Andijan")⟩,
          ⟨some (some "Tashkent")⟩]) 0 []).1 ∧
    (get_cities "UZ" (Except.error ()) 0 []).1 =
      ["Tashkent", "New York", "Delhi"] := by
  have h := cities_sorted_or_fallback "UZ"
    (Except.ok [⟨some (some "Tashkent")⟩, ⟨some (some "Andijan")⟩,
      ⟨some (some "Tashkent")⟩]) 0 [] rfl
  have h2 := cities_sorted_or_fallback "UZ" (Except.error ()) 0 [] rfl
  have h3 := (h.2 _ rfl).2 (by decide)
  exact ⟨h3.1, (h3.2.2 "Andijan").2 (by decide), h2.1 rfl⟩

end CleanSky
